import Mathlib

/-!
Shallow embedding of `wisefoodctl.py` (wisefood/platform-deployment), a
single-file CLI that scaffolds Tanka "environments", rewrites a spec.json
file, and creates Kubernetes secrets.  External collaborators (filesystem,
the `tk` binary, the Kubernetes API) are modelled as explicit parameters and
an effect trace; `error(...)` (which prints and calls `sys.exit(1)`) is
modelled as a `fatalError` outcome, an uncaught Python exception as `exn`.
-/

namespace Wisefoodctl

/-- Outcome of running a piece of the script: normal return, a call to the
script's `error()` helper (prints a marked line and exits non-zero), or an
uncaught Python exception. -/
inductive PyOutcome (α : Type) where
| ok (a : α)
| fatalError (msg : String)
| exn (name : String)
deriving DecidableEq, Repr

/-- Observable side effects performed by the script, in order. -/
inductive Effect where
| mkdirEff (path : String)
| tkEnvAdd (path ctx ns : String)
| writeSpecFile (path : String)
| apiCreateSecret (name ns : String)
| warnSecretExists (name ns : String)
deriving DecidableEq, Repr

/-- A step returns the effects it performed together with its outcome. -/
abbrev Step (α : Type) := List Effect × PyOutcome α

/-- Sequencing of steps: effects accumulate; a fatal error or an exception
stops the run (later effects never happen). -/
def stepBind (x : Step α) (f : α → Step β) : Step β :=
  match x with
  | (effs, .ok a) => (effs ++ (f a).1, (f a).2)
  | (effs, .fatalError m) => (effs, .fatalError m)
  | (effs, .exn m) => (effs, .exn m)

/-- State of the target environment directory on disk. -/
inductive DirState where
| absent
| emptyDir
| nonEmptyDir
deriving DecidableEq, Repr

/-- `path.exists()` for a `DirState`. -/
def path_exists : DirState → Bool
  | .absent => false
  | _ => true

/-- `any(path.iterdir())` for a `DirState`: true only for a non-empty directory. -/
def any_iterdir : DirState → Bool
  | .nonEmptyDir => true
  | _ => false

/-- `path.mkdir(parents=True, exist_ok=exist_ok)`: creates the directory when
absent; when it already exists, succeeds silently iff `exist_ok`, otherwise
raises `FileExistsError`. -/
def path_mkdir (st : DirState) (exist_ok : Bool) (path : String) : Step DirState :=
  match st with
  | .absent => ([.mkdirEff path], .ok .emptyDir)
  | st => if exist_ok then ([], .ok st) else ([], .exn "FileExistsError")

/-- Path join with a forward slash, as `pathlib`'s `/` renders for these paths. -/
def pjoin (a b : String) : String := a ++ "/" ++ b

/-- `ENV_DIR = REPO_ROOT / "environments"`, parameterised by the repository root. -/
def ENV_DIR (repoRoot : String) : String := pjoin repoRoot "environments"

/-- The parsed YAML environment specification.  Fields are optional because the
Python dict may lack any key; `d["k"]` on a missing key raises `KeyError`,
`d.get("k", dflt)` substitutes the default.  A `secrets` entry is itself a
one-key mapping in the sample file, hence a list of key/value lists. -/
structure EnvSpec where
  env : Option String
  «namespace» : Option String
  k8s_context : Option String
  author : Option String
  secrets : Option (List (List (String × String)))
deriving DecidableEq, Repr

/-- The mutable parts of an environment's `spec.json` that
`generate_spec_json` touches, plus the untouched remainder of the file
(scaffolded by `tk env add`) carried through opaquely. -/
structure SpecData where
  metadata_namespace : String
  spec_injectLabels : Bool
  spec_resourceDefaults_annotations : List (String × String)
  spec_resourceDefaults_labels : List (String × String)
  otherFields : List (String × String)
deriving DecidableEq, Repr

/-- UTF-8 encoding of one character, as Python's `str.encode("utf-8")`. -/
def utf8EncodeChar (c : Char) : List Nat :=
  let n := c.toNat
  if n < 128 then [n]
  else if n < 2048 then [192 + n / 64, 128 + n % 64]
  else if n < 65536 then [224 + n / 4096, 128 + n / 64 % 64, 128 + n % 64]
  else [240 + n / 262144, 128 + n / 4096 % 64, 128 + n / 64 % 64, 128 + n % 64]

/-- UTF-8 bytes of a string. -/
def strBytes (s : String) : List Nat := (s.toList.map utf8EncodeChar).flatten

/-- The standard base64 alphabet. -/
def b64alphabet : List Char :=
  "ABCDEFGHIJKLMNOPQRSTUVWXYZabcdefghijklmnopqrstuvwxyz0123456789+/".toList

/-- Character for one 6-bit group. -/
def b64char (n : Nat) : Char := b64alphabet.getD n 'A'

/-- Base64 of a byte list, with `=` padding, as `base64.b64encode`. -/
def b64encodeBytes : List Nat → String
  | b1 :: b2 :: b3 :: rest =>
    let n := b1 * 65536 + b2 * 256 + b3
    String.mk [b64char (n / 262144), b64char (n / 4096 % 64),
               b64char (n / 64 % 64), b64char (n % 64)] ++ b64encodeBytes rest
  | [b1, b2] =>
    let n := b1 * 1024 + b2 * 4
    String.mk [b64char (n / 4096), b64char (n / 64 % 64), b64char (n % 64)] ++ "="
  | [b1] =>
    let n := b1 * 16
    String.mk [b64char (n / 64), b64char (n % 64)] ++ "=="
  | [] => ""

/-- `base64.b64encode(v.encode("utf-8")).decode("utf-8")`. -/
def b64encode (s : String) : String := b64encodeBytes (strBytes s)

/-- Cluster state: the secrets that exist, keyed by (namespace, name), with
their stored data. -/
abbrev Cluster := List ((String × String) × List (String × String))

/-- `v1.create_namespaced_secret(namespace, body)`: the API returns a 409
conflict when a secret of that name already exists in the namespace,
otherwise stores the new secret. -/
def create_namespaced_secret (cluster : Cluster) (ns name : String)
    (data : List (String × String)) : Except Nat Cluster :=
  if cluster.any (fun e => e.1.1 == ns && e.1.2 == name) then .error 409
  else .ok (cluster ++ [((ns, name), data)])

/-- `create_and_apply_k8s_secret`: base64-encodes the data, issues one
create call; a 409 conflict is only warned about (the cluster is left as it
was), any other API failure is fatal. -/
def create_and_apply_k8s_secret (cluster : Cluster) (secret_name ns : String)
    (data_dict : List (String × String)) : Step Cluster :=
  let encoded_data := data_dict.map (fun kv => (kv.1, b64encode kv.2))
  match create_namespaced_secret cluster ns secret_name encoded_data with
  | .ok c => ([.apiCreateSecret secret_name ns], .ok c)
  | .error e =>
    if e == 409 then
      ([.apiCreateSecret secret_name ns, .warnSecretExists secret_name ns], .ok cluster)
    else
      ([.apiCreateSecret secret_name ns], .fatalError "Failed to apply secret")

/-- The loop body of `generate_secrets` over the flattened (name, value)
pairs: each pair becomes one `create_and_apply_k8s_secret` call with
`{"password": value}`. -/
def applySecretsList (ns : String) (pairs : List (String × String))
    (cluster : Cluster) : Step Cluster :=
  match pairs with
  | [] => ([], .ok cluster)
  | (n, v) :: rest =>
    stepBind (create_and_apply_k8s_secret cluster n ns [("password", v)])
      (fun c => applySecretsList ns rest c)

/-- `generate_secrets(env_spec)`: namespace defaults to "default", secrets to
the empty list; the nested `for secret in secrets: for name, value in
secret.items()` loop flattens the list of one-key dicts. -/
def generate_secrets (env_spec : EnvSpec) (cluster : Cluster) : Step Cluster :=
  let ns := env_spec.«namespace».getD "default"
  let secrets := env_spec.secrets.getD []
  applySecretsList ns secrets.flatten cluster

/-- `generate_env(env_name, env_spec)`: runs
`tk env add ENV_DIR/env_name --context-name ctx --namespace ns`; missing
`k8s_context` or `namespace` keys raise `KeyError`. -/
def generate_env (repoRoot env_name : String) (env_spec : EnvSpec) : Step Unit :=
  match env_spec.k8s_context, env_spec.«namespace» with
  | some ctx, some ns => ([.tkEnvAdd (pjoin (ENV_DIR repoRoot) env_name) ctx ns], .ok ())
  | _, _ => ([], .exn "KeyError")

/-- `generate_spec_json(env_name, env_spec)`: loads the scaffolded
`spec.json`, sets `metadata.namespace` to the path of `main.jsonnet`,
switches `injectLabels` on, installs the author annotation and the fixed
management labels, and writes the file back. -/
def generate_spec_json (repoRoot env_name : String) (env_spec : EnvSpec)
    (scaffolded : SpecData) : Step SpecData :=
  match env_spec.author with
  | none => ([], .exn "KeyError")
  | some a =>
    let path := pjoin (pjoin (ENV_DIR repoRoot) env_name) "spec.json"
    let newSpec : SpecData :=
      { scaffolded with
        metadata_namespace := pjoin (pjoin (ENV_DIR repoRoot) env_name) "main.jsonnet"
        spec_injectLabels := true
        spec_resourceDefaults_annotations := [("wisefood.eu/author", a)]
        spec_resourceDefaults_labels :=
          [("app.kubernetes.io/managed-by", "tanka"),
           ("app.kubernetes.io/part-of", "wisefood"),
           ("wisefood.deployment", "main")] }
    ([.writeSpecFile path], .ok newSpec)

/-- `generate_env_main(env_spec)` is a deliberate no-op (`pass`). -/
def generate_env_main (_env_spec : EnvSpec) : Step Unit := ([], .ok ())

/-- Result of a successful `create_env` run. -/
structure CreateEnvResult where
  specWritten : SpecData
  cluster : Cluster
deriving Repr

/-- `create_env(config_yaml_path, force)`.  Parameters stand for the external
world: `loadResult` is the outcome of `load_yaml` on the config file,
`dirState` the state of `ENV_DIR/env_name` on disk, `scaffolded` the
`spec.json` content written by `tk env add`, `cluster` the secrets already in
the cluster.  A YAML parse failure or missing `env` key is caught and turned
into a fatal error; a non-empty pre-existing directory without `force` is a
fatal error; then the directory is created with `exist_ok=force` and the
generation steps run in order. -/
def create_env (repoRoot : String) (loadResult : Except String EnvSpec)
    (force : Bool) (dirState : DirState) (scaffolded : SpecData)
    (cluster : Cluster) : Step CreateEnvResult :=
  match loadResult with
  | .error e =>
    ([], .fatalError ("Could not parse deployment configuration file or generate environment: " ++ e))
  | .ok env_spec =>
    match env_spec.env with
    | none =>
      ([], .fatalError "Could not parse deployment configuration file or generate environment: KeyError")
    | some env_name =>
      if path_exists dirState && any_iterdir dirState && !force then
        ([], .fatalError ("Environment already exists and contains files: " ++ env_name))
      else
        stepBind (path_mkdir dirState force (pjoin (ENV_DIR repoRoot) env_name)) (fun _ =>
          stepBind (generate_env repoRoot env_name env_spec) (fun _ =>
            stepBind (generate_spec_json repoRoot env_name env_spec scaffolded) (fun sp =>
              stepBind (generate_secrets env_spec cluster) (fun c =>
                stepBind (generate_env_main env_spec) (fun _ =>
                  ([], .ok ⟨sp, c⟩))))))

/-- The (name, value) targets of the secret-creation API calls in a trace. -/
def secretCallTargets (effs : List Effect) : List (String × String) :=
  effs.filterMap fun e =>
    match e with
    | .apiCreateSecret n ns => some (n, ns)
    | _ => none

/-- ASCII lower-casing, as Python's `str.lower()` on the ASCII identifiers
that occur here (character-wise, structurally recursive). -/
def lowerString (s : String) : String := String.mk (s.toList.map Char.toLower)

/-- Whitespace stripping at both ends, as Python's `str.strip()`. -/
def trimString (s : String) : String :=
  String.mk (((s.toList.dropWhile Char.isWhitespace).reverse.dropWhile
    Char.isWhitespace).reverse)

/-- `get_os_arch()`: lower-cases `platform.system()` and
`platform.machine()`, maps the supported Linux architectures, and is a fatal
error for everything else. -/
def get_os_arch (system machine : String) : PyOutcome String :=
  let os_name := lowerString system
  let arch := lowerString machine
  if os_name == "linux" then
    if ["x86_64", "amd64"].contains arch then .ok "amd64"
    else if ["aarch64", "arm64", "armv8l"].contains arch then .ok "arm64"
    else if ["armv7l", "armv6l"].contains arch then .ok "arm"
    else .fatalError ("Unsupported OS/Architecture: " ++ os_name ++ "/" ++ arch)
  else .fatalError ("Unsupported OS/Architecture: " ++ os_name ++ "/" ++ arch)

/-- The static `TOOLS` table: logical name to expected executable name. -/
def TOOLS : List (String × String) :=
  [("tk", "tk"), ("helm", "helm"), ("kubectl", "kubectl"), ("jb", "jb")]

/-- `validate_tools()`, parameterised by `shutil.which` (does the executable
resolve on the search path?): collects every missing tool and fails fatally
with all of them in one message. -/
def validate_tools (which : String → Bool) : PyOutcome Unit :=
  let missing_tools := (TOOLS.filter (fun nc => !which nc.2)).map (fun nc => nc.1)
  if !missing_tools.isEmpty then
    .fatalError ("Missing required tools: " ++ String.intercalate ", " missing_tools)
  else .ok ()

/-- One entry of `ENV_DIR.iterdir()`: its name, whether it is a directory,
and whether `entry / "spec.json"` exists. -/
structure DirEntry where
  name : String
  is_dir : Bool
  hasSpecJson : Bool
deriving DecidableEq, Repr

/-- `list_envs()`: `none` models an absent `ENV_DIR` (empty result); else the
entries are visited in sorted order and the names of directories containing
`spec.json` are collected. -/
def list_envs (root : Option (List DirEntry)) : List String :=
  match root with
  | none => []
  | some entries =>
    ((entries.mergeSort (fun a b => decide (a.name ≤ b.name))).filter
      (fun p => p.is_dir && p.hasSpecJson)).map (fun p => p.name)

/-- `verify_choice(prompt)` over the queue of lines the user will type:
loops until a line (stripped, lower-cased) is y/yes (true) or n/no (false);
`none` means the queue ran out with the prompt still unanswered. -/
def verify_choice (answers : List String) : Option Bool :=
  match answers with
  | [] => none
  | a :: rest =>
    let choice := lowerString (trimString a)
    if ["y", "yes"].contains choice then some true
    else if ["n", "no"].contains choice then some false
    else verify_choice rest

/-- The side-effecting steps `hard_init` can perform after confirmation. -/
inductive InitEffect where
| setupDirStructure
| installJb
| installTanka
| validateToolsStep
| depsUpdate
| depsVendor
deriving DecidableEq, Repr

/-- `hard_init()`: prints a warning, asks for confirmation, and only on an
affirmative answer runs the setup/install/update pipeline; on a negative
answer it prints "Aborted." and returns.  The result is the list of
side-effecting steps performed and whether the function returned (`none`
outcome means the prompt never got an answer). -/
def hard_init (answers : List String) : List InitEffect × Option Unit :=
  match verify_choice answers with
  | none => ([], none)
  | some false => ([], some ())
  | some true =>
    ([.setupDirStructure, .installJb, .installTanka, .validateToolsStep,
      .depsUpdate, .depsVendor], some ())

/-- The subcommands registered by `build_parser`, each with the handler its
`set_defaults(func=...)` dispatches to. -/
def build_parser_commands : List (String × String) :=
  [("sample", "generate_sample_yaml"),
   ("init", "hard_init"),
   ("validate", "validate_setup"),
   ("list", "list_envs"),
   ("env", "create_env"),
   ("deps", "deps_update|deps_vendor"),
   ("install", "install_tanka|install_jb|install_helm")]

/-- The top-level subcommand names `build_parser` accepts. -/
def build_parser_subcommands : List String := build_parser_commands.map (fun c => c.1)

/-- Sub-subcommands of `deps`. -/
def deps_subcommands : List String := ["update", "vendor"]

/-- Sub-subcommands of `install`. -/
def install_subcommands : List String := ["tanka", "jb", "helm"]

/-- Modelled from the spec: the CLI surface the spec lists, including the
`plan ENV` and `deploy ENV [-y]` subcommands that have no counterpart in
`build_parser`. -/
def spec_cli_subcommands : List String :=
  ["sample", "init", "validate", "list", "env", "plan", "deploy", "deps", "install"]

/-- The example YAML input of the spec's scenario: env "staging", namespace
"wf-staging", context "ctx1", author "a@b.com", one secret db-pass. -/
def stagingSpec : EnvSpec :=
  { env := some "staging"
    «namespace» := some "wf-staging"
    k8s_context := some "ctx1"
    author := some "a@b.com"
    secrets := some [[("db-pass", "x")]] }

/-! ## Theorems -/

/-- C2 counterexample: the spec's CLI surface lists a `plan ENV` subcommand,
but `build_parser` registers no `plan` subcommand, so the claim that every
listed subcommand form is recognised and dispatched is false at the input
`plan`. -/
theorem c2_counterexample_plan_not_registered :
    "plan" ∈ spec_cli_subcommands ∧ "plan" ∉ build_parser_subcommands := by
  decide

/-- C2 (amended): the parser recognises exactly the listed subcommands other
than `plan` and `deploy` (which are not registered at all); each registered
subcommand is bound to a handler, and `deps`/`install` have the listed
sub-subcommands. -/
theorem c2_amended_cli_surface :
    (∀ c, c ∈ spec_cli_subcommands →
      (c ∈ build_parser_subcommands ↔ (c ≠ "plan" ∧ c ≠ "deploy")))
    ∧ build_parser_subcommands = build_parser_commands.map (fun c => c.1)
    ∧ deps_subcommands = ["update", "vendor"]
    ∧ install_subcommands = ["tanka", "jb", "helm"] := by
  refine ⟨by decide, rfl, rfl, rfl⟩

/-- C2 witness: the amended statement applied at the concrete subcommand
`plan`. -/
theorem c2_amended_cli_surface_witness :
    "plan" ∈ spec_cli_subcommands
    ∧ ("plan" ∈ build_parser_subcommands ↔ ("plan" ≠ "plan" ∧ "plan" ≠ "deploy")) :=
  ⟨by decide, c2_amended_cli_surface.1 "plan" (by decide)⟩

/-- C6: on Linux, `get_os_arch` maps x86_64/amd64 to amd64,
aarch64/arm64/armv8l to arm64, armv7l/armv6l to arm, and every other
machine string, or any non-Linux OS, is a fatal error. -/
theorem c6_get_os_arch_mapping :
    get_os_arch "linux" "x86_64" = .ok "amd64"
    ∧ get_os_arch "linux" "amd64" = .ok "amd64"
    ∧ get_os_arch "linux" "aarch64" = .ok "arm64"
    ∧ get_os_arch "linux" "arm64" = .ok "arm64"
    ∧ get_os_arch "linux" "armv8l" = .ok "arm64"
    ∧ get_os_arch "linux" "armv7l" = .ok "arm"
    ∧ get_os_arch "linux" "armv6l" = .ok "arm"
    ∧ (∀ system machine : String,
        (lowerString system = "linux" →
          (["x86_64", "amd64", "aarch64", "arm64", "armv8l", "armv7l",
            "armv6l"].contains (lowerString machine)) = false) →
        ∃ msg, get_os_arch system machine = .fatalError msg) := by
  refine ⟨by decide, by decide, by decide, by decide, by decide, by decide, by decide, ?_⟩
  intro system machine h
  simp only [get_os_arch]
  by_cases hos : lowerString system = "linux"
  · have hm := h hos
    simp only [List.contains_cons, Bool.or_eq_false_iff, beq_eq_false_iff_ne, ne_eq,
      List.contains_nil] at hm
    obtain ⟨h1, h2, h3, h4, h5, h6, h7, -⟩ := hm
    simp [hos, List.contains_cons, h1, h2, h3, h4, h5, h6, h7]
  · simp [hos]

/-- C6 witness: the error branch of the previous theorem applied at the
concrete non-Linux pair (darwin, x86_64). -/
theorem c6_get_os_arch_mapping_witness :
    ∃ msg, get_os_arch "Darwin" "x86_64" = .fatalError msg :=
  c6_get_os_arch_mapping.2.2.2.2.2.2.2 "Darwin" "x86_64" (by decide)

/-- C7: with `force = True` the pre-existing-environment guard of
`create_env` is false, and the `mkdir(parents=True, exist_ok=force)` step
succeeds for every prior state of the target directory (absent, empty, or
non-empty). -/
theorem c7_force_directory_step_never_errors (dirState : DirState) (p : String) :
    (path_exists dirState && any_iterdir dirState && !(true : Bool)) = false
    ∧ ∃ effs st, path_mkdir dirState true p = (effs, .ok st) := by
  cases dirState <;> exact ⟨by simp, _, _, rfl⟩

/-- C9: `hard_init` performs none of its side-effecting steps (directory
setup, tool installation, dependency update) unless the confirmation prompt
returns an affirmative answer; on a negative answer it returns having done
nothing. -/
theorem c9_hard_init_inert_without_confirmation (answers : List String)
    (h : verify_choice answers ≠ some true) :
    (hard_init answers).1 = []
    ∧ (verify_choice answers = some false → hard_init answers = ([], some ())) := by
  unfold hard_init
  cases hv : verify_choice answers with
  | none => simp
  | some b =>
    cases b with
    | false => simp
    | true => exact absurd hv h

/-- C9 witness: the theorem applied at the concrete answer queue ["n"]. -/
theorem c9_hard_init_inert_without_confirmation_witness :
    (hard_init ["n"]).1 = []
    ∧ (verify_choice ["n"] = some false → hard_init ["n"] = ([], some ())) :=
  c9_hard_init_inert_without_confirmation ["n"] (by decide)

/-- C3: against an existing non-empty environment directory and with
`force = False`, `create_env` is a fatal error with an empty effect trace:
nothing in the directory is created, modified, or removed. -/
theorem c3_nonempty_without_force_fatal_and_inert (repoRoot : String)
    (env_spec : EnvSpec) (n : String) (h : env_spec.env = some n)
    (scaffolded : SpecData) (cluster : Cluster) :
    ∃ msg, create_env repoRoot (.ok env_spec) false .nonEmptyDir scaffolded cluster
      = ([], .fatalError msg) := by
  refine ⟨"Environment already exists and contains files: " ++ n, ?_⟩
  simp [create_env, h, path_exists, any_iterdir]

/-- C3 witness: the theorem applied at the staging example input. -/
theorem c3_nonempty_without_force_fatal_and_inert_witness :
    ∃ msg, create_env "/repo" (.ok stagingSpec) false .nonEmptyDir
      ⟨"", false, [], [], []⟩ [] = ([], .fatalError msg) :=
  c3_nonempty_without_force_fatal_and_inert "/repo" stagingSpec "staging" (by decide)
    ⟨"", false, [], [], []⟩ []

/-- C10: when the target directory exists but is empty and `force = False`,
the marked fatal-error guard is not taken (its condition is false because
`any(path.iterdir())` is false), and `create_env` instead dies with an
unhandled `FileExistsError` from `mkdir(exist_ok=False)`. -/
theorem c10_empty_dir_without_force_raises_file_exists (repoRoot : String)
    (env_spec : EnvSpec) (n : String) (h : env_spec.env = some n)
    (scaffolded : SpecData) (cluster : Cluster) :
    (path_exists .emptyDir && any_iterdir .emptyDir && !(false : Bool)) = false
    ∧ create_env repoRoot (.ok env_spec) false .emptyDir scaffolded cluster
        = ([], .exn "FileExistsError") := by
  refine ⟨by decide, ?_⟩
  simp [create_env, h, path_exists, any_iterdir, path_mkdir, stepBind]

/-- C10 witness: the theorem applied at the staging example input. -/
theorem c10_empty_dir_without_force_raises_file_exists_witness :
    (path_exists .emptyDir && any_iterdir .emptyDir && !(false : Bool)) = false
    ∧ create_env "/repo" (.ok stagingSpec) false .emptyDir
        ⟨"", false, [], [], []⟩ [] = ([], .exn "FileExistsError") :=
  c10_empty_dir_without_force_raises_file_exists "/repo" stagingSpec "staging" (by decide)
    ⟨"", false, [], [], []⟩ []

/-- C4: applying a secret whose name already exists in the target namespace
leaves the cluster exactly as it was (no value is overwritten), emits the
conflict warning after the one API call, returns normally, and the
`generate_secrets` loop goes on to process the remaining secrets. -/
theorem c4_secret_conflict_warns_and_continues (cluster : Cluster)
    (name ns v : String) (rest : List (String × String))
    (h : cluster.any (fun e => e.1.1 == ns && e.1.2 == name) = true) :
    create_and_apply_k8s_secret cluster name ns [("password", v)]
      = ([.apiCreateSecret name ns, .warnSecretExists name ns], .ok cluster)
    ∧ applySecretsList ns ((name, v) :: rest) cluster
      = ([.apiCreateSecret name ns, .warnSecretExists name ns]
          ++ (applySecretsList ns rest cluster).1,
         (applySecretsList ns rest cluster).2) := by
  have h1 : create_and_apply_k8s_secret cluster name ns [("password", v)]
      = ([.apiCreateSecret name ns, .warnSecretExists name ns], .ok cluster) := by
    simp [create_and_apply_k8s_secret, create_namespaced_secret, h]
  refine ⟨h1, ?_⟩
  simp [applySecretsList, h1, stepBind]

/-- C4 witness: the theorem applied at a concrete one-secret cluster with a
conflicting name and one further secret left to process. -/
theorem c4_secret_conflict_warns_and_continues_witness :
    ([(("ns1", "s1"), [("password", "old")])] : Cluster).any
        (fun e => e.1.1 == "ns1" && e.1.2 == "s1") = true
    ∧ (create_and_apply_k8s_secret [(("ns1", "s1"), [("password", "old")])] "s1" "ns1"
          [("password", "new")]
        = ([.apiCreateSecret "s1" "ns1", .warnSecretExists "s1" "ns1"],
           .ok [(("ns1", "s1"), [("password", "old")])])
      ∧ applySecretsList "ns1" [("s1", "new"), ("s2", "w")]
          [(("ns1", "s1"), [("password", "old")])]
        = ([.apiCreateSecret "s1" "ns1", .warnSecretExists "s1" "ns1"]
            ++ (applySecretsList "ns1" [("s2", "w")]
                  [(("ns1", "s1"), [("password", "old")])]).1,
           (applySecretsList "ns1" [("s2", "w")]
              [(("ns1", "s1"), [("password", "old")])]).2)) :=
  ⟨by decide,
   c4_secret_conflict_warns_and_continues [(("ns1", "s1"), [("password", "old")])]
     "s1" "ns1" "new" [("s2", "w")] (by decide)⟩

/-- C8: whenever at least one required tool is missing from the search path,
`validate_tools` is a fatal error whose single message lists exactly the
names of all missing tools. -/
theorem c8_validate_tools_lists_all_missing (which : String → Bool)
    (h : ∃ t, t ∈ TOOLS ∧ which t.2 = false) :
    ∃ missing : List String,
      validate_tools which
        = .fatalError ("Missing required tools: " ++ String.intercalate ", " missing)
      ∧ ∀ t, t ∈ TOOLS → (which t.2 = false ↔ t.1 ∈ missing) := by
  refine ⟨(TOOLS.filter (fun nc => !which nc.2)).map (fun nc => nc.1), ?_, ?_⟩
  · obtain ⟨t, ht, hw⟩ := h
    have hmem : t ∈ TOOLS.filter (fun nc => !which nc.2) :=
      List.mem_filter.mpr ⟨ht, by simp [hw]⟩
    have hne := List.ne_nil_of_mem (List.mem_map_of_mem (fun nc => nc.1) hmem)
    simp only [validate_tools]
    rw [if_pos]
    simpa using hne
  · intro t ht
    constructor
    · intro hw
      exact List.mem_map.mpr ⟨t, List.mem_filter.mpr ⟨ht, by simp [hw]⟩, rfl⟩
    · intro hm
      obtain ⟨t', ht', he⟩ := List.mem_map.mp hm
      obtain ⟨ht'T, hw'⟩ := List.mem_filter.mp ht'
      simp only [TOOLS, List.mem_cons, List.not_mem_nil, or_false] at ht ht'T
      rcases ht with rfl | rfl | rfl | rfl <;>
        rcases ht'T with rfl | rfl | rfl | rfl <;> simp_all

/-- C8 witness: the theorem applied at a concrete `which` for which only
`tk` resolves. -/
theorem c8_validate_tools_lists_all_missing_witness :
    (∃ t, t ∈ TOOLS ∧ (fun s => s == "tk") t.2 = false)
    ∧ ∃ missing : List String,
        validate_tools (fun s => s == "tk")
          = .fatalError ("Missing required tools: " ++ String.intercalate ", " missing)
        ∧ ∀ t, t ∈ TOOLS → ((fun s => s == "tk") t.2 = false ↔ t.1 ∈ missing) :=
  ⟨⟨("helm", "helm"), by decide, by decide⟩,
   c8_validate_tools_lists_all_missing (fun s => s == "tk")
     ⟨("helm", "helm"), by decide, by decide⟩⟩

/-- C1: on the staging example input, starting from an absent target
directory, `create_env` succeeds; the rewritten `spec.json` (written at
`environments/staging/spec.json`) has `metadata.namespace` equal to the
filesystem path of `environments/staging/main.jsonnet` and carries the
annotation `wisefood.eu/author = a@b.com`; and exactly one secret-creation
API call is made, for `db-pass` in namespace `wf-staging`. -/
theorem c1_staging_scenario (repoRoot : String) (scaffolded : SpecData)
    (cluster : Cluster) :
    ∃ r : CreateEnvResult,
      (create_env repoRoot (.ok stagingSpec) false .absent scaffolded cluster).2 = .ok r
      ∧ r.specWritten.metadata_namespace
          = pjoin (pjoin (ENV_DIR repoRoot) "staging") "main.jsonnet"
      ∧ ("wisefood.eu/author", "a@b.com") ∈ r.specWritten.spec_resourceDefaults_annotations
      ∧ Effect.writeSpecFile (pjoin (pjoin (ENV_DIR repoRoot) "staging") "spec.json")
          ∈ (create_env repoRoot (.ok stagingSpec) false .absent scaffolded cluster).1
      ∧ secretCallTargets
          (create_env repoRoot (.ok stagingSpec) false .absent scaffolded cluster).1
          = [("db-pass", "wf-staging")] := by
  by_cases hc : (cluster.any fun e => e.1.1 == "wf-staging" && e.1.2 == "db-pass") = true
  · have hres : create_env repoRoot (.ok stagingSpec) false .absent scaffolded cluster
        = ([.mkdirEff (pjoin (ENV_DIR repoRoot) "staging"),
            .tkEnvAdd (pjoin (ENV_DIR repoRoot) "staging") "ctx1" "wf-staging",
            .writeSpecFile (pjoin (pjoin (ENV_DIR repoRoot) "staging") "spec.json"),
            .apiCreateSecret "db-pass" "wf-staging",
            .warnSecretExists "db-pass" "wf-staging"],
           .ok ⟨{ scaffolded with
              metadata_namespace := pjoin (pjoin (ENV_DIR repoRoot) "staging") "main.jsonnet"
              spec_injectLabels := true
              spec_resourceDefaults_annotations := [("wisefood.eu/author", "a@b.com")]
              spec_resourceDefaults_labels :=
                [("app.kubernetes.io/managed-by", "tanka"),
                 ("app.kubernetes.io/part-of", "wisefood"),
                 ("wisefood.deployment", "main")] }, cluster⟩) := by
      simp [create_env, stagingSpec, path_exists, any_iterdir, path_mkdir, generate_env,
        generate_spec_json, generate_secrets, applySecretsList, create_and_apply_k8s_secret,
        create_namespaced_secret, generate_env_main, stepBind, hc]
    rw [hres]
    exact ⟨_, rfl, rfl, by simp, by simp, by simp [secretCallTargets]⟩
  · have hres : create_env repoRoot (.ok stagingSpec) false .absent scaffolded cluster
        = ([.mkdirEff (pjoin (ENV_DIR repoRoot) "staging"),
            .tkEnvAdd (pjoin (ENV_DIR repoRoot) "staging") "ctx1" "wf-staging",
            .writeSpecFile (pjoin (pjoin (ENV_DIR repoRoot) "staging") "spec.json"),
            .apiCreateSecret "db-pass" "wf-staging"],
           .ok ⟨{ scaffolded with
              metadata_namespace := pjoin (pjoin (ENV_DIR repoRoot) "staging") "main.jsonnet"
              spec_injectLabels := true
              spec_resourceDefaults_annotations := [("wisefood.eu/author", "a@b.com")]
              spec_resourceDefaults_labels :=
                [("app.kubernetes.io/managed-by", "tanka"),
                 ("app.kubernetes.io/part-of", "wisefood"),
                 ("wisefood.deployment", "main")] },
             cluster ++ [(("wf-staging", "db-pass"), [("password", b64encode "x")])]⟩) := by
      simp [create_env, stagingSpec, path_exists, any_iterdir, path_mkdir, generate_env,
        generate_spec_json, generate_secrets, applySecretsList, create_and_apply_k8s_secret,
        create_namespaced_secret, generate_env_main, stepBind, hc]
    rw [hres]
    exact ⟨_, rfl, rfl, by simp, by simp, by simp [secretCallTargets]⟩

/-- C5: `list_envs` on an absent root returns the empty list; otherwise it
returns exactly the names of the subdirectories that contain a `spec.json`
(plain files and directories without `spec.json` are excluded), in sorted
order. -/
theorem c5_list_envs_contract (entries : List DirEntry) :
    list_envs none = []
    ∧ (∀ x, x ∈ list_envs (some entries) ↔
        ∃ e, e ∈ entries ∧ e.is_dir = true ∧ e.hasSpecJson = true ∧ e.name = x)
    ∧ (list_envs (some entries)).Pairwise (fun a b => a ≤ b) := by
  refine ⟨rfl, ?_, ?_⟩
  · intro x
    simp only [list_envs, List.mem_map, List.mem_filter, List.mem_mergeSort,
      Bool.and_eq_true]
    constructor
    · rintro ⟨e, ⟨he, hd, hs⟩, rfl⟩
      exact ⟨e, he, hd, hs, rfl⟩
    · rintro ⟨e, he, h1, h2, rfl⟩
      exact ⟨e, ⟨he, h1, h2⟩, rfl⟩
  · have hs : (entries.mergeSort (fun a b => decide (a.name ≤ b.name))).Pairwise
        (fun a b => (decide (a.name ≤ b.name) : Bool) = true) := by
      apply List.sorted_mergeSort
      · intro a b c hab hbc
        simp only [decide_eq_true_eq] at hab hbc ⊢
        exact le_trans hab hbc
      · intro a b
        simp [le_total]
    have hf : ((entries.mergeSort (fun a b => decide (a.name ≤ b.name))).filter
        (fun p => p.is_dir && p.hasSpecJson)).Pairwise
        (fun a b => (decide (a.name ≤ b.name) : Bool) = true) :=
      List.Pairwise.sublist (List.filter_sublist _) hs
    simp only [list_envs]
    exact List.pairwise_map.mpr (hf.imp (fun h => by simpa using h))

end Wisefoodctl
